import Mathlib

/-!
Shallow embedding of the `we-heart-shoes-api` controller
(`controllers/sz.js`, here `src/unnamed/part_000`) together with the
`HttpError` value type (`src/utils/HttpError.js`) and the router's
status defaulting (`err.statusCode || 500`, `src/unnamed/part_002`).

Strings are Lean `String`s; the JS string operations used by the
controller (`trim`, `toUpperCase`, `toLowerCase`, `split`, `substr`,
template concatenation) are re-implemented over the character list so
that every definition evaluates by kernel reduction.  JS numbers in
this system are finite decimals; they are modelled by the unnormalised
fraction type `JsNum`, and the `Number(string)` coercion by
`jsNumber?` (`none` stands for `NaN`; exponent and hex forms never
occur in this system and are also mapped to `none`).  The two
flat-cache domains are association lists with `getKey`/`setKey`, and
each public operation is a pure function of its arguments, the decoded
upstream reply and the cache state, returning its result, the new
cache state and whether the upstream client was invoked.
-/

namespace SZ

/-! ### JS string primitives -/

/-- JS `String.prototype.trim`: drop whitespace from both ends. -/
def jsTrim (s : String) : String :=
  String.mk (((s.toList.dropWhile Char.isWhitespace).reverse.dropWhile
    Char.isWhitespace).reverse)

/-- JS `String.prototype.toUpperCase` (identity on non-letters such as `£`). -/
def jsToUpper (s : String) : String :=
  String.mk (s.toList.map Char.toUpper)

/-- JS `String.prototype.toLowerCase`. -/
def jsToLower (s : String) : String :=
  String.mk (s.toList.map Char.toLower)

/-- Split a character list at every character satisfying `p`, keeping
empty fragments, as JS `String.prototype.split` does with a
single-character regex or separator: `"a,,b"` → `["a", "", "b"]`. -/
def splitEvery (p : Char → Bool) : List Char → List (List Char)
  | [] => [[]]
  | c :: cs =>
    match splitEvery p cs with
    | [] => [[]]
    | r :: rs => if p c then [] :: r :: rs else (c :: r) :: rs

/-- JS `String.prototype.split` with a single-character criterion. -/
def jsSplit (s : String) (p : Char → Bool) : List String :=
  (splitEvery p s.toList).map String.mk

/-! ### JS numbers -/

/-- A finite JS number as an unnormalised fraction (`den` is always a
power of ten in this system, never zero).  JS `Number` values reaching
the controller are finite decimals, so this representation is exact. -/
structure JsNum where
  num : Int
  den : Nat
deriving DecidableEq, Repr

/-- JS falsiness of a number: `0` (and `-0`) are falsy. -/
def JsNum.falsy (q : JsNum) : Bool := q.num == 0

/-- Value of a non-empty all-digit character list; `none` otherwise. -/
def decDigits? (cs : List Char) : Option Nat :=
  if cs.length ≠ 0 && cs.all (fun c => '0' ≤ c && c ≤ '9')
  then some (cs.foldl (fun a c => a * 10 + (c.toNat - 48)) 0) else none

/-- JS `Number(string)` on the decimal forms that occur in this system:
optional sign, digits, optional fraction; the empty (trimmed) string is
`0`; anything else (including exponent/hex forms, which never occur
here) is `NaN`, modelled as `none`. -/
def jsNumber? (s : String) : Option JsNum :=
  let t := (jsTrim s).toList
  if t.isEmpty then some ⟨0, 1⟩ else
  let signed : Bool × List Char :=
    match t with
    | c :: rest => if c = '-' then (true, rest)
                   else if c = '+' then (false, rest) else (false, t)
    | [] => (false, t)
  let sign : Int := if signed.1 then -1 else 1
  match splitEvery (fun c => c = '.') signed.2 with
  | [ip] => (decDigits? ip).map (fun n => ⟨sign * n, 1⟩)
  | [ip, fp] =>
    if ip.isEmpty && fp.isEmpty then none else
    match (if ip.isEmpty then some 0 else decDigits? ip),
          (if fp.isEmpty then some 0 else decDigits? fp) with
    | some i, some f => some ⟨sign * (i * 10 ^ fp.length + f), 10 ^ fp.length⟩
    | _, _ => none
  | _ => none

/-- JS `Number.prototype.toFixed(2)` on a finite decimal: the absolute
value times 100, rounded to the nearest integer (half away from zero —
on the values this system feeds in, identical to the double-based JS
rounding, and every claim is conditioned on the rounded output), then
formatted with exactly two decimals and a leading `-` for negative
inputs. -/
def toFixed2 (q : JsNum) : String :=
  let h : Nat := (200 * q.num.natAbs + q.den) / (2 * q.den)
  let s := toString (h / 100) ++ "." ++
    (if h % 100 < 10 then "0" else "") ++ toString (h % 100)
  if q.num < 0 then "-" ++ s else s

/-! ### Character classes of the controller's regexes -/

/-- Character class of the JS regex `[^A-Z0-9]` with the `i` flag,
negated: a character is a non-separator iff it is ASCII alphanumeric. -/
def jsAlnum (c : Char) : Bool :=
  ('A' ≤ c && c ≤ 'Z') || ('a' ≤ c && c ≤ 'z') || ('0' ≤ c && c ≤ '9')

/-- Character class of the JS regex `[A-Z]` with the `gi` flags, as used
in `word.substr(1).replace(/[A-Z]/gi, "")`: every ASCII letter, either
case. -/
def jsAlpha (c : Char) : Bool :=
  ('A' ≤ c && c ≤ 'Z') || ('a' ≤ c && c ≤ 'z')

/-- Character class of the JS regex `[A-Z]` without the `i` flag:
only upper-case ASCII letters (used by the spec-side reading of C2). -/
def jsUpper (c : Char) : Bool :=
  'A' ≤ c && c ≤ 'Z'

/-! ### Offer abbreviator (sz.js lines 238-257) -/

/-- Token transform of `abbreviateOffer` (sz.js line 254):
`word => word.toLowerCase() === "for" ? "-4-"
       : word[0].toUpperCase() + word.substr(1).replace(/[A-Z]/gi, "")`.
Because of the `i` flag the `replace` deletes every ASCII letter of the
tail, keeping only its digits. -/
def offerTokenMap (w : String) : String :=
  if jsToLower w = "for" then "-4-"
  else jsToUpper (w.take 1) ++ String.mk ((w.drop 1).toList.filter (fun c => !jsAlpha c))

/-- Function `abbreviateOffer` (sz.js lines 238-257).  A trimmed input without a
space character is returned upper-cased; otherwise the original input is
split at every non-alphanumeric character, empty fragments are dropped,
each token is transformed by `offerTokenMap` and the results are
concatenated with no separator. -/
def abbreviateOffer (offer : String) : String :=
  if !((jsTrim offer).toList.contains ' ') then jsToUpper offer
  else String.join (((jsSplit offer (fun c => !jsAlnum c)).filter
    (fun w => w.length ≠ 0)).map offerTokenMap)

/-! ### Errors (utils/HttpError.js, and plain JS errors) -/

/-- The errors a controller operation can reject with: an `HttpError`
carrying a status code, a plain `Error` with a message (no status), or
a `TypeError` raised by an unguarded property access on `null` or
`undefined`. -/
inductive JsError where
  | httpError (message : String) (statusCode : Nat)
  | genericError (message : String)
  | typeError
deriving DecidableEq, Repr

/-- Status the router serves for a rejected operation
(`err.statusCode || 500`, routes/api part_002): the error's status when
it has a truthy one, 500 otherwise. -/
def callerStatus : JsError → Nat
  | .httpError _ s => if s == 0 then 500 else s
  | _ => 500

/-! ### Cache store (flat-cache, as used by sz.js) -/

/-- Association-list cache domain; `setKey` makes the new binding shadow
any older one, which is observationally flat-cache's overwrite. -/
def getKey {V : Type} (c : List (String × V)) (k : String) : Option V :=
  (c.find? (fun e => e.1 == k)).map (fun e => e.2)

/-- Overwrite binding for `k` (flat-cache `setKey`). -/
def setKey {V : Type} (c : List (String × V)) (k : String) (v : V) :
    List (String × V) :=
  (k, v) :: c

/-! ### Product page model (the JSDOM document, as an extraction oracle)

`getProductInfo` reads the page only through fixed query selectors; the
`ProductPage` structure holds exactly what those selectors return, and
the parsing below applies the controller's transformations to it. -/

/-- One `#divSizeSelector li[data-id][data-qty]` element. -/
structure SizeElem where
  textContent : String
  dataQty : String
  dataId : String
deriving DecidableEq, Repr

/-- One offer badge anchor (`.float-right a[href][title]`), with its
`title` attribute and the `src` of its inner `img`. -/
structure OfferBadge where
  title : String
  imgSrc : String
deriving DecidableEq, Repr

/-- The selector results `getProductInfo` extracts from a product page. -/
structure ProductPage where
  skuText : String
  nameText : String
  priceContent : String
  currencyContent : String
  thumbnailSrc : String
  breadcrumbText : List String
  sizeElems : List SizeElem
  offerBadges : List OfferBadge
deriving DecidableEq, Repr

/-- An entry of `Product.offers` (sz.js lines 372-379). -/
structure Offer where
  name : String
  image : String
  abbr : String
deriving DecidableEq, Repr

/-- An entry of `Product.sizeRange` (sz.js lines 357-365). -/
structure SizeEntry where
  size : String
  warehouse : Option JsNum
  code : String
deriving DecidableEq, Repr

/-- Field `Product.price` (sz.js lines 334-336). -/
structure Price where
  current : Option JsNum
deriving DecidableEq, Repr

/-- The record `getProductInfo` resolves with (sz.js lines 320-383). -/
structure Product where
  id : Option JsNum
  name : String
  price : Price
  currency : String
  thumbnail : String
  categories : List String
  sizeRange : List SizeEntry
  offers : List Offer
deriving DecidableEq, Repr

/-- Array `ignoredOffers` (sz.js lines 50-52). -/
def ignoredOffers : List String :=
  ["memory foam"]

/-- One offer badge mapped to an `Offer` (sz.js lines 374-378):
`{ name: title.trim(), image: img src, abbr: abbreviateOffer(title) }`. -/
def mkOffer (b : OfferBadge) : Offer :=
  ⟨jsTrim b.title, b.imgSrc, abbreviateOffer b.title⟩

/-- The `productInfo` object built from the document (sz.js lines
320-383), field by field. -/
def parseProduct (p : ProductPage) : Product where
  id := jsNumber? p.skuText
  name := jsTrim p.nameText
  price := ⟨jsNumber? p.priceContent⟩
  currency := jsToUpper (jsTrim p.currencyContent)
  thumbnail := p.thumbnailSrc
  categories := p.breadcrumbText.map jsTrim
  sizeRange := p.sizeElems.map (fun e =>
    ⟨jsToUpper (jsTrim e.textContent), jsNumber? e.dataQty,
      (jsTrim e.dataId).takeRight 3⟩)
  offers := (p.offerBadges.map mkOffer).filter
    (fun o => !(ignoredOffers.contains (jsToLower o.name)))

/-! ### Cache state -/

/-- A product-page cache entry, as written by the `setCache` callback:
a timestamp from the clock and a value
(sz.js line 224); the stored value is the parsed
`productInfo`, never raw HTML (sz.js line 386). -/
structure PageCacheEntry where
  timestamp : Nat
  value : Product
deriving DecidableEq, Repr

/-- Raw store fields of the StoreLocator reply used by `locateStore`. -/
structure RawStore where
  DisplayLine1 : String
  Key : String
  Property : String
  Street : String
  PostCode : String
  Telephone : String
deriving DecidableEq, Repr

/-- The Store record `locateStore` resolves with (sz.js lines 110-117). -/
structure Store where
  storeName : String
  storeId : Option JsNum
  storeAddress : String
  storePhone : String
deriving DecidableEq, Repr

/-- The two flat-cache domains of the controller (sz.js lines 36-39). -/
structure CacheState where
  locator : List (String × Store)
  products : List (String × PageCacheEntry)
deriving DecidableEq, Repr

/-! ### Store locator (sz.js lines 69-123) -/

/-- Decoded StoreLocator payload (`JSON.parse(data.d)`): `Stores` is a
JSON array or `null` (`none`), `ErrorMsg` a string (absent modelled as
the falsy `""`). -/
structure LocatorReply where
  Stores : Option (List RawStore)
  ErrorMsg : String
deriving DecidableEq, Repr

/-- Arguments of `locateStore`.  `lat`/`lon` arrive as query-string
values; `Number(...)` coercion of a present value is absorbed into
`Option JsNum` (`none` = absent/unparsable, i.e. `Number` gave `NaN`). -/
structure LocArgs where
  lat : Option JsNum
  lon : Option JsNum
  city : Option String
  postcode : Option String
deriving DecidableEq, Repr

/-- Expression `Number(v) || 0` (sz.js line 72): `NaN`, `0` and `-0` all collapse
to `0`. -/
def jsOr0 (o : Option JsNum) : JsNum :=
  match o with
  | some q => if q.falsy then ⟨0, 1⟩ else q
  | none => ⟨0, 1⟩

/-- The locator cache key (sz.js line 76): `"near:"` followed by the
elements of `[lat, lon, city, postcode]` — lat/lon already the
`toFixed(2)` strings — with `undefined` entries removed, each remaining
entry lower-cased, joined by `","`. -/
def locCacheKey (a : LocArgs) : String :=
  "near:" ++ String.intercalate ","
    ((([some (toFixed2 (jsOr0 a.lat)), some (toFixed2 (jsOr0 a.lon)),
        a.city, a.postcode].filterMap id)).map jsToLower)

/-- Word transform of the title-casing (sz.js line 112), first character
upper-cased and the rest kept; on the
empty word JS reads `undefined[0]`-style `word[0]` as `undefined` and
stringifies it. -/
def titleCaseWord (w : String) : String :=
  if w.length = 0 then "undefined" else jsToUpper (w.take 1) ++ w.drop 1

/-- The Store record built from the first raw store (sz.js lines
110-117). -/
def mkStore (r : RawStore) : Store where
  storeName := String.intercalate " "
    ((jsSplit (jsToLower r.DisplayLine1) (fun c => c = ' ')).map titleCaseWord)
  storeId := jsNumber? r.Key
  storeAddress := r.Property ++ ", " ++ r.Street ++ ", " ++ r.PostCode
  storePhone := String.join (jsSplit r.Telephone (fun c => c = ' '))

/-- Outcome of a `locateStore` call: the settled promise, the cache
state afterwards, and whether the upstream client was invoked. -/
structure LocOutcome where
  result : Except JsError Store
  state : CacheState
  upstreamCalled : Bool

/-- Function `locateStore` (sz.js lines 69-123) as a function of its arguments,
the decoded upstream payload (consulted only on a cache miss) and the
cache state.  On a cached key the stored Store resolves immediately; on
`Stores: null` with a truthy `ErrorMsg` an `HttpError(ErrorMsg, 400)` is
thrown; with `Stores: null` and a falsy `ErrorMsg` the unguarded
`Stores[0]` (and the `data.DisplayLine1` on an empty array's
`undefined`) raises a `TypeError`; otherwise the first store is mapped
through `mkStore`, cached under the key, persisted, and returned. -/
def locateStore (a : LocArgs) (reply : LocatorReply) (st : CacheState) :
    LocOutcome :=
  let key := locCacheKey a
  match getKey st.locator key with
  | some v => ⟨.ok v, st, false⟩
  | none =>
    match reply.Stores with
    | none =>
      if reply.ErrorMsg ≠ "" then ⟨.error (.httpError reply.ErrorMsg 400), st, true⟩
      else ⟨.error .typeError, st, true⟩
    | some stores =>
      match stores.head? with
      | none => ⟨.error .typeError, st, true⟩
      | some s =>
        let record := mkStore s
        ⟨.ok record, ⟨setKey st.locator key record, st.products⟩, true⟩

/-! ### Stock checker (sz.js lines 146-186) -/

/-- Arguments of `checkStoreStock`. -/
structure StockArgs where
  styleCode : String
  size : String
  storeId : String
  quantity : Option Nat
deriving DecidableEq, Repr

/-- The usable object under `_prod_sNo_Stock` in the decoded payload. -/
structure StockData where
  HasStock : Bool
  StoreName : String
  StoreNo : Int
  StoreAddress : String
deriving DecidableEq, Repr

/-- Decoded stock payload (`JSON.parse(data.d.data)`).  `prodSNoStock`
models the `_prod_sNo_Stock` field; `none` covers the field being
absent (or null), the falsy cases of the source's truthiness test. -/
structure StockPayload where
  prodSNoStock : Option StockData
deriving DecidableEq, Repr

/-- The record `checkStoreStock` resolves with (sz.js lines 180-185). -/
structure StockCheckResult where
  inStock : Bool
  storeName : String
  storeId : Int
  storeAddress : String
deriving DecidableEq, Repr

/-- Function `checkStoreStock` (sz.js lines 146-186) as a function of its
arguments, the decoded upstream payload and the cache state.  The body
never mentions `cache`; the state is threaded through untouched.  When
`_prod_sNo_Stock` is present its fields are mapped to a
`StockCheckResult`; otherwise a plain `Error("Product unavailable")`
(no status code) is thrown. -/
def checkStoreStock (a : StockArgs) (reply : StockPayload) (st : CacheState) :
    Except JsError StockCheckResult × CacheState :=
  (match reply.prodSNoStock with
   | some d => .ok ⟨d.HasStock, d.StoreName, d.StoreNo, d.StoreAddress⟩
   | none => .error (.genericError "Product unavailable"), st)

/-! ### Product page fetch and scrape (sz.js lines 206-228, 293-390) -/

/-- The products-domain cache key (sz.js line 208). -/
def pageCacheKey (pathname : String) : String :=
  "page@sz:" ++ jsToLower pathname

/-- What `fetchWebpage` resolves with: a cache hit within TTL, or the
live page downloaded from the site. -/
inductive FetchResult where
  | hit (value : Product)
  | fresh (page : ProductPage)
deriving DecidableEq, Repr

/-- Function `fetchWebpage` (sz.js lines 206-228).  With a truthy `cacheTTL`, a
cached entry whose `timestamp` is truthy and satisfies
`Date.now() - timestamp < cacheTTL` resolves as a hit; otherwise the
page is fetched live from the site oracle.  (In JS a timestamp ahead of
the clock makes the difference negative, hence a hit; truncated `Nat`
subtraction gives `0`, hence also a hit.) -/
def fetchWebpage (pathname : String) (cacheTTL : Nat) (now : Nat)
    (site : String → ProductPage) (st : CacheState) : FetchResult :=
  let key := pageCacheKey pathname
  if cacheTTL ≠ 0 then
    match getKey st.products key with
    | some e =>
      if e.timestamp ≠ 0 && now - e.timestamp < cacheTTL then .hit e.value
      else .fresh (site pathname)
    | none => .fresh (site pathname)
  else .fresh (site pathname)

/-- The `setCache` callback handed out by `fetchWebpage` (sz.js lines
221-226): a no-op for a falsy `cacheTTL`, otherwise it overwrites the
entry with the value timestamped at the current clock and persists. -/
def setCachePage (pathname : String) (cacheTTL : Nat) (now : Nat)
    (value : Product) (st : CacheState) : CacheState :=
  if cacheTTL = 0 then st
  else ⟨st.locator, setKey st.products (pageCacheKey pathname) ⟨now, value⟩⟩

/-- styleCode truncation of `getProductInfo` (sz.js lines 307-308):
`if (styleCode.length - 3 >= 5) styleCode = styleCode.substr(0,
styleCode.length - 3)`, in JS signed arithmetic. -/
def normalizeStyleCode (s : String) : String :=
  if 5 ≤ (s.length : Int) - 3 then s.take (s.length - 3) else s

/-- The product-page request path built by `getProductInfo`
(sz.js line 313). -/
def productPath (styleCode : String) : String :=
  "/Products/Product-" ++ normalizeStyleCode styleCode

/-- Arguments of `getProductInfo`; `storeId` is accepted but unused. -/
structure ProdArgs where
  styleCode : String
  storeId : Option Nat
deriving DecidableEq, Repr

/-- Outcome of a `getProductInfo` call: the resolved Product, the cache
state afterwards, and whether an upstream fetch was issued. -/
structure ProdOutcome where
  result : Product
  state : CacheState
  fetched : Bool
deriving DecidableEq, Repr

/-- Function `getProductInfo` (sz.js lines 293-390): truncate the style code,
fetch the page through the 60 000 ms page cache, and on a fresh page
parse it and write the parsed Product back with the current
timestamp. -/
def getProductInfo (a : ProdArgs) (now : Nat) (site : String → ProductPage)
    (st : CacheState) : ProdOutcome :=
  let pathname := productPath a.styleCode
  match fetchWebpage pathname 60000 now site st with
  | .hit v => ⟨v, st, false⟩
  | .fresh page =>
    let info := parseProduct page
    ⟨info, setCachePage pathname 60000 now info st, true⟩

/-! ### Spec-side definitions and concrete fixtures for the claims -/

/-- The token rule exactly as claim C2 words it: `for` (case-insensitive)
maps to `-4-`; any other token keeps its first character uppercased,
followed by the token's remaining characters with only the additional
UPPER-case letters removed — the lower-case interior kept. -/
def claimedTokenMapC2 (w : String) : String :=
  if jsToLower w = "for" then "-4-"
  else jsToUpper (w.take 1) ++
    String.mk ((w.drop 1).toList.filter (fun c => !jsUpper c))

/-- The multi-word pipeline of claim C2 built on its own token rule. -/
def claimedAbbrevC2 (offer : String) : String :=
  String.join (((jsSplit offer (fun c => !jsAlnum c)).filter
    (fun w => w.length ≠ 0)).map claimedTokenMapC2)

/-- The token rule of claim C2 as amended: `for` (case-insensitive) maps
to `-4-`; any other token becomes its first character uppercased
followed by the token's remaining characters with every ASCII letter
(either case) removed, keeping only its digits. -/
def amendedTokenMapC2 (w : String) : String :=
  if jsToLower w = "for" then "-4-"
  else jsToUpper (w.take 1) ++
    String.mk ((w.drop 1).toList.filter (fun c => !jsAlpha c))

/-- A concrete raw store, as the locator upstream would supply. -/
def demoRawStore : RawStore :=
  ⟨"GLOUCESTER EASTGATE", "123", "10", "Eastgate Street", "GL1 1PA",
   "01452 123456"⟩

/-- The Store record the controller derives from `demoRawStore`. -/
def demoStore : Store := mkStore demoRawStore

/-- A concrete product page used to exercise `getProductInfo`. -/
def c4Page : ProductPage :=
  ⟨"12345", " Comfy Shoe ", "9.99", "gbp", "/img/12345.png",
   ["Mens", "Sandals"], [⟨" 9 ", "4", "1234567"⟩],
   [⟨"Buy One Get One Free", "/img/bogof.png"⟩]⟩

/-- A site oracle serving `c4Page` at every path. -/
def c4Site : String → ProductPage := fun _ => c4Page

/-- A product page whose badges exercise the offer ignore-list: one
badge trims to exactly `memory foam` (case-insensitively), one merely
contains it as a substring, one is a genuine offer. -/
def c7Page : ProductPage :=
  ⟨"54321", "Boot", "19.99", "GBP", "/t.png", [], [],
   [⟨" Memory Foam ", "/mf.png"⟩, ⟨"Memory Foam Insoles", "/mfi.png"⟩,
    ⟨"3 For £12", "/o.png"⟩]⟩

/-! ## Theorems for the claims -/

/-- C2 (counterexample): on the multi-word input
`"Buy One Get One Free"` the code produces `"BOGOF"`, while the token
rule as the claim words it (only additional UPPER-case letters removed,
lower-case interior kept) would produce `"BuyOneGetOneFree"`; the two
disagree, so the claim as stated is false. -/
theorem c2_counterexample :
    abbreviateOffer "Buy One Get One Free" = "BOGOF" ∧
    claimedAbbrevC2 "Buy One Get One Free" = "BuyOneGetOneFree" ∧
    abbreviateOffer "Buy One Get One Free" ≠
      claimedAbbrevC2 "Buy One Get One Free" := by
  refine ⟨by decide, by decide, by decide⟩

/-- C2 (amended): for every multi-word input (the trimmed form contains
a space), after splitting at every non-alphanumeric character and
dropping empty tokens, each token case-insensitively equal to `for`
maps to `-4-`, and every other token becomes its first character
uppercased followed by the token's remaining characters with every
ASCII letter removed (keeping only the digits); the transformed tokens
are joined with no separator. -/
theorem c2_token_rule (offer : String)
    (h : (jsTrim offer).toList.contains ' ' = true) :
    abbreviateOffer offer =
      String.join (((jsSplit offer (fun c => !jsAlnum c)).filter
        (fun w => w.length ≠ 0)).map amendedTokenMapC2) := by
  have hmap : amendedTokenMapC2 = offerTokenMap := rfl
  unfold abbreviateOffer
  rw [h, hmap]
  simp

/-- C2 witness: the amended token rule instantiated at `"2 For £10"`. -/
theorem c2_token_rule_witness :
    (jsTrim "2 For £10").toList.contains ' ' = true ∧
    abbreviateOffer "2 For £10" =
      String.join (((jsSplit "2 For £10" (fun c => !jsAlnum c)).filter
        (fun w => w.length ≠ 0)).map amendedTokenMapC2) :=
  ⟨by decide, c2_token_rule "2 For £10" (by decide)⟩

/-- C3: `abbreviateOffer "Buy One Get One Free" = "BOGOF"`,
`abbreviateOffer "2 For £10" = "2-4-10"`, and every input whose trimmed
form contains no whitespace is returned unchanged except uppercased. -/
theorem c3_examples_and_single_word :
    abbreviateOffer "Buy One Get One Free" = "BOGOF" ∧
    abbreviateOffer "2 For £10" = "2-4-10" ∧
    ∀ s : String, (∀ c ∈ (jsTrim s).toList, c.isWhitespace = false) →
      abbreviateOffer s = jsToUpper s := by
  refine ⟨by decide, by decide, fun s h => ?_⟩
  have hc : (jsTrim s).toList.contains ' ' = false := by
    by_contra hne
    rw [Bool.not_eq_false] at hne
    have hmem : ' ' ∈ (jsTrim s).toList := by simpa using hne
    simpa using h ' ' hmem
  unfold abbreviateOffer
  rw [hc]
  simp

/-- C3 witness: the single-word branch instantiated at `"Save"`. -/
theorem c3_examples_and_single_word_witness :
    abbreviateOffer "Save" = jsToUpper "Save" ∧ jsToUpper "Save" = "SAVE" :=
  ⟨c3_examples_and_single_word.2.2 "Save" (by decide), by decide⟩

/-- C5: on a cache miss, an upstream payload with `Stores: null` and a
non-empty `ErrorMsg` makes `locateStore` fail with
`HttpError(ErrorMsg, 400)` — a client error, served with status 400 —
and no Store is returned or cached. -/
theorem c5_notfound_error (a : LocArgs) (reply : LocatorReply)
    (st : CacheState) (hmiss : getKey st.locator (locCacheKey a) = none)
    (hnull : reply.Stores = none) (hmsg : reply.ErrorMsg ≠ "") :
    (locateStore a reply st).result =
      .error (.httpError reply.ErrorMsg 400) ∧
    (locateStore a reply st).state = st ∧
    callerStatus (.httpError reply.ErrorMsg 400) = 400 := by
  simp [locateStore, hmiss, hnull, hmsg, callerStatus]

/-- C5 witness: a concrete miss with `Stores: null` and a message. -/
theorem c5_notfound_error_witness :
    (locateStore ⟨none, none, some "Gloucester", none⟩
        ⟨none, "No stores found"⟩ ⟨[], []⟩).result =
      .error (.httpError "No stores found" 400) ∧
    (locateStore ⟨none, none, some "Gloucester", none⟩
        ⟨none, "No stores found"⟩ ⟨[], []⟩).state = (⟨[], []⟩ : CacheState) ∧
    callerStatus (.httpError "No stores found" 400) = 400 :=
  c5_notfound_error ⟨none, none, some "Gloucester", none⟩
    ⟨none, "No stores found"⟩ ⟨[], []⟩ rfl rfl (by decide)

/-- C6: `getProductInfo` builds the request path from the style code
with the trailing three characters stripped whenever the code's length
minus 3 is at least 5 (so a code of length 8 keeps its first 5
characters), and from the code unchanged whenever its length minus 3 is
below 5. -/
theorem c6_stylecode_truncation (s : String) :
    (5 ≤ (s.length : Int) - 3 →
      productPath s = "/Products/Product-" ++ s.take (s.length - 3)) ∧
    (s.length = 8 →
      productPath s = "/Products/Product-" ++ s.take 5) ∧
    ((s.length : Int) - 3 < 5 →
      productPath s = "/Products/Product-" ++ s) := by
  refine ⟨fun h => ?_, fun h => ?_, fun h => ?_⟩
  · simp [productPath, normalizeStyleCode, h]
  · have h5 : 5 ≤ (s.length : Int) - 3 := by rw [h]; norm_num
    simp [productPath, normalizeStyleCode, h5, h]
  · rw [productPath, normalizeStyleCode, if_neg (by omega)]

/-- C6 witness: a length-8 code is cut to its first 5 characters, a
length-5 code is used unchanged. -/
theorem c6_stylecode_truncation_witness :
    productPath "12345678" = "/Products/Product-" ++ "12345678".take 5 ∧
    productPath "12345" = "/Products/Product-" ++ "12345" :=
  ⟨(c6_stylecode_truncation "12345678").2.1 (by decide),
   (c6_stylecode_truncation "12345").2.2 (by decide)⟩

/-- C8: `checkStoreStock` neither writes any cache domain (the state
after the call is the state before) nor reads one (its settled value is
the same whatever the cache state), for all arguments and replies. -/
theorem c8_stock_no_cache (a : StockArgs) (reply : StockPayload)
    (st st₂ : CacheState) :
    (checkStoreStock a reply st).2 = st ∧
    (checkStoreStock a reply st).1 = (checkStoreStock a reply st₂).1 :=
  ⟨rfl, rfl⟩

/-- C9: `checkStoreStock` resolves with a `StockCheckResult` iff the
decoded payload carries the confirming `_prod_sNo_Stock` field; when it
is absent the call rejects with the plain `Error("Product unavailable")`
whose caller-facing status is the router default 500, not 400. -/
theorem c9_product_unavailable (a : StockArgs) (reply : StockPayload)
    (st : CacheState) :
    ((∃ r, (checkStoreStock a reply st).1 = .ok r) ↔
      reply.prodSNoStock.isSome = true) ∧
    (reply.prodSNoStock = none →
      (checkStoreStock a reply st).1 =
        .error (.genericError "Product unavailable") ∧
      callerStatus (.genericError "Product unavailable") = 500 ∧
      callerStatus (.genericError "Product unavailable") ≠ 400) := by
  cases h : reply.prodSNoStock with
  | none => simp [checkStoreStock, h, callerStatus]
  | some d => simp [checkStoreStock, h]

/-- C9 witness: a concrete payload without `_prod_sNo_Stock` rejects
with the generic error at status 500, and a concrete payload with it
resolves. -/
theorem c9_product_unavailable_witness :
    (checkStoreStock ⟨"12345", "660", "42", none⟩ ⟨none⟩ ⟨[], []⟩).1 =
      .error (.genericError "Product unavailable") ∧
    ((∃ r, (checkStoreStock ⟨"12345", "660", "42", none⟩
        ⟨some ⟨true, "Gloucester", 42, "Eastgate"⟩⟩ ⟨[], []⟩).1 = .ok r) ↔
      (some (⟨true, "Gloucester", 42, "Eastgate"⟩ : StockData)).isSome = true) :=
  ⟨((c9_product_unavailable ⟨"12345", "660", "42", none⟩ ⟨none⟩
      ⟨[], []⟩).2 rfl).1,
   (c9_product_unavailable ⟨"12345", "660", "42", none⟩
      ⟨some ⟨true, "Gloucester", 42, "Eastgate"⟩⟩ ⟨[], []⟩).1⟩

/-- C10: on a cache miss, an upstream payload with `Stores: null` but an
empty `ErrorMsg` does not take the guarded 400 branch: the unguarded
`Stores[0]` access on `null` raises a `TypeError`, a generic failure
served with the default status 500, never an `HttpError`. -/
theorem c10_null_stores_generic (a : LocArgs) (reply : LocatorReply)
    (st : CacheState) (hmiss : getKey st.locator (locCacheKey a) = none)
    (hnull : reply.Stores = none) (hmsg : reply.ErrorMsg = "") :
    (locateStore a reply st).result = .error .typeError ∧
    (∀ m k, (locateStore a reply st).result ≠ .error (.httpError m k)) ∧
    callerStatus .typeError = 500 := by
  simp [locateStore, hmiss, hnull, hmsg, callerStatus]

/-- C10 witness: a concrete miss with `Stores: null` and no message. -/
theorem c10_null_stores_generic_witness :
    (locateStore ⟨none, none, some "Nowhere", none⟩ ⟨none, ""⟩
        ⟨[], []⟩).result = .error .typeError ∧
    callerStatus .typeError = 500 :=
  ⟨(c10_null_stores_generic ⟨none, none, some "Nowhere", none⟩ ⟨none, ""⟩
      ⟨[], []⟩ rfl rfl rfl).1,
   (c10_null_stores_generic ⟨none, none, some "Nowhere", none⟩ ⟨none, ""⟩
      ⟨[], []⟩ rfl rfl rfl).2.2⟩

/-- C7: in every parsed Product, no offer whose (trimmed) title is
case-insensitively an exact member of the ignore-list survives; a badge
whose trimmed title lower-cases to a member is excluded, and every
other badge — including one merely containing a member as a substring —
is kept. -/
theorem c7_ignored_offers (p : ProductPage) :
    (∀ o ∈ (parseProduct p).offers,
      ignoredOffers.contains (jsToLower o.name) = false) ∧
    (∀ b ∈ p.offerBadges,
      ignoredOffers.contains (jsToLower (jsTrim b.title)) = true →
      mkOffer b ∉ (parseProduct p).offers) ∧
    (∀ b ∈ p.offerBadges,
      ignoredOffers.contains (jsToLower (jsTrim b.title)) = false →
      mkOffer b ∈ (parseProduct p).offers) := by
  refine ⟨fun o ho => ?_, fun b _ hig hmem => ?_, fun b hb hig => ?_⟩
  · have hkeep := (List.mem_filter.mp ho).2
    simpa using hkeep
  · have hkeep := (List.mem_filter.mp hmem).2
    have hname : (mkOffer b).name = jsTrim b.title := rfl
    rw [hname] at hkeep
    simp at hkeep
    exact hkeep (by simpa using hig)
  · refine List.mem_filter.mpr ⟨List.mem_map_of_mem _ hb, ?_⟩
    have hname : (mkOffer b).name = jsTrim b.title := rfl
    simp [hname]
    simpa using hig

/-- C7 witness: on `c7Page`, the badge trimming to exactly
`memory foam` is excluded from the offers while the badge titled
`Memory Foam Insoles` (substring only) is kept. -/
theorem c7_ignored_offers_witness :
    mkOffer ⟨" Memory Foam ", "/mf.png"⟩ ∉ (parseProduct c7Page).offers ∧
    mkOffer ⟨"Memory Foam Insoles", "/mfi.png"⟩ ∈ (parseProduct c7Page).offers :=
  ⟨(c7_ignored_offers c7Page).2.1 ⟨" Memory Foam ", "/mf.png"⟩
      (by decide) (by decide),
   (c7_ignored_offers c7Page).2.2 ⟨"Memory Foam Insoles", "/mfi.png"⟩
      (by decide) (by decide)⟩

/-- C1 (counterexample): with lat/lon rounding to `51.50` / `-0.10` and
city and postcode undefined, the computed cache key is
`near:51.50,-0.10` — the `undefined` fields are filtered out before the
join, so no trailing commas appear — not `near:51.50,-0.10,,` as the
claim states; consequently a Store cached under the claimed key
`near:51.50,-0.10,,` does not prevent the upstream call. -/
theorem c1_counterexample :
    locCacheKey ⟨some ⟨515, 10⟩, some ⟨-1, 10⟩, none, none⟩ =
      "near:51.50,-0.10" ∧
    ("near:51.50,-0.10" : String) ≠ "near:51.50,-0.10,," ∧
    (locateStore ⟨some ⟨515, 10⟩, some ⟨-1, 10⟩, none, none⟩
        ⟨some [demoRawStore], ""⟩
        ⟨[("near:51.50,-0.10,,", demoStore)], []⟩).upstreamCalled = true := by
  refine ⟨by decide, by decide, by decide⟩

/-- C1 (amended): for every call whose lat and lon round to `51.50` and
`-0.10` with city and postcode undefined, the computed cache key equals
`near:51.50,-0.10`, and when a Store is already cached under that key
the call returns it without invoking the upstream client and leaves the
cache unchanged. -/
theorem c1_cache_key_and_hit (a : LocArgs) (v : Store) (st : CacheState)
    (hlat : toFixed2 (jsOr0 a.lat) = "51.50")
    (hlon : toFixed2 (jsOr0 a.lon) = "-0.10")
    (hcity : a.city = none) (hpost : a.postcode = none) :
    locCacheKey a = "near:51.50,-0.10" ∧
    (getKey st.locator "near:51.50,-0.10" = some v →
      ∀ reply : LocatorReply,
        (locateStore a reply st).result = .ok v ∧
        (locateStore a reply st).upstreamCalled = false ∧
        (locateStore a reply st).state = st) := by
  have hkey : locCacheKey a = "near:51.50,-0.10" := by
    unfold locCacheKey
    rw [hlat, hlon, hcity, hpost]
    rfl
  refine ⟨hkey, fun hhit reply => ?_⟩
  simp [locateStore, hkey, hhit]

/-- C1 witness: the amended key and cache-hit behaviour at the concrete
coordinates 51.5 / -0.1 with a Store cached under `near:51.50,-0.10`. -/
theorem c1_cache_key_and_hit_witness :
    locCacheKey ⟨some ⟨515, 10⟩, some ⟨-1, 10⟩, none, none⟩ =
      "near:51.50,-0.10" ∧
    (locateStore ⟨some ⟨515, 10⟩, some ⟨-1, 10⟩, none, none⟩ ⟨none, ""⟩
        ⟨[("near:51.50,-0.10", demoStore)], []⟩).result = .ok demoStore ∧
    (locateStore ⟨some ⟨515, 10⟩, some ⟨-1, 10⟩, none, none⟩ ⟨none, ""⟩
        ⟨[("near:51.50,-0.10", demoStore)], []⟩).upstreamCalled = false :=
  have h := c1_cache_key_and_hit ⟨some ⟨515, 10⟩, some ⟨-1, 10⟩, none, none⟩
    demoStore ⟨[("near:51.50,-0.10", demoStore)], []⟩
    (by decide) (by decide) rfl rfl
  ⟨h.1, (h.2 (by decide) ⟨none, ""⟩).1, (h.2 (by decide) ⟨none, ""⟩).2.1⟩

/-- A fresh binding shadows: reading the key just written returns the
written value (flat-cache `setKey` then `getKey`). -/
theorem getKey_setKey {V : Type} (c : List (String × V)) (k : String) (v : V) :
    getKey (setKey c k v) k = some v := by
  simp [getKey, setKey]

/-- Whenever `fetchWebpage` yields a fresh page, that page is the one
the site oracle serves at the requested pathname. -/
theorem fetchWebpage_fresh_eq {pathname : String} {ttl now : Nat}
    {site : String → ProductPage} {st : CacheState} {page : ProductPage}
    (h : fetchWebpage pathname ttl now site st = .fresh page) :
    page = site pathname := by
  simp only [fetchWebpage] at h
  split at h
  · split at h
    · split at h
      · exact FetchResult.noConfusion h
      · injection h with h
        exact h.symm
    · injection h with h
      exact h.symm
  · injection h with h
    exact h.symm

/-- A `getProductInfo` call that fetched (a miss or an expired entry)
returns the Product parsed from the live page and overwrites the cache
entry under the page key with it, timestamped with the call time. -/
theorem getProductInfo_of_fetched {a : ProdArgs} {now : Nat}
    {site : String → ProductPage} {st : CacheState}
    (h : (getProductInfo a now site st).fetched = true) :
    getProductInfo a now site st =
      ⟨parseProduct (site (productPath a.styleCode)),
       ⟨st.locator,
        setKey st.products (pageCacheKey (productPath a.styleCode))
          ⟨now, parseProduct (site (productPath a.styleCode))⟩⟩,
       true⟩ := by
  cases hf : fetchWebpage (productPath a.styleCode) 60000 now site st with
  | hit v =>
    exfalso
    simp only [getProductInfo, hf] at h
    exact Bool.false_ne_true h
  | fresh page =>
    have hpage := fetchWebpage_fresh_eq hf
    subst hpage
    simp [getProductInfo, hf, setCachePage]

/-- A `getProductInfo` call finding a valid (truthy, in-TTL) entry under
the page key resolves with the cached Product, touches nothing, and
issues no fetch. -/
theorem getProductInfo_hit {a : ProdArgs} {now : Nat}
    {site : String → ProductPage} {st : CacheState} {e : PageCacheEntry}
    (hg : getKey st.products (pageCacheKey (productPath a.styleCode)) = some e)
    (ht : e.timestamp ≠ 0) (hw : now - e.timestamp < 60000) :
    getProductInfo a now site st = ⟨e.value, st, false⟩ := by
  have hfetch : fetchWebpage (productPath a.styleCode) 60000 now site st =
      .hit e.value := by
    simp [fetchWebpage, hg, ht, hw]
  simp [getProductInfo, hfetch]

/-- A `getProductInfo` call finding an expired entry under the page key
re-fetches and overwrites. -/
theorem getProductInfo_expired {a : ProdArgs} {now : Nat}
    {site : String → ProductPage} {st : CacheState} {e : PageCacheEntry}
    (hg : getKey st.products (pageCacheKey (productPath a.styleCode)) = some e)
    (hw : ¬ (now - e.timestamp < 60000)) :
    getProductInfo a now site st =
      ⟨parseProduct (site (productPath a.styleCode)),
       ⟨st.locator,
        setKey st.products (pageCacheKey (productPath a.styleCode))
          ⟨now, parseProduct (site (productPath a.styleCode))⟩⟩,
       true⟩ := by
  have hfetch : fetchWebpage (productPath a.styleCode) 60000 now site st =
      .fresh (site (productPath a.styleCode)) := by
    simp [fetchWebpage, hg, hw]
  simp [getProductInfo, hfetch, setCachePage]

/-- C4: after a first `getProductInfo` call at time `t1` that fetched,
the parsed Product sits in the products cache under
`page@sz:<lowercased path>` with timestamp `t1`; a second call for the
same style within the 60 000 ms TTL issues no upstream fetch, returns
that previously parsed Product (whatever the live site now serves) and
leaves the cache untouched; a call after TTL expiry fetches the live
page again, returns its re-parsed Product (not raw HTML) and overwrites
the cache entry with it under a fresh timestamp. -/
theorem c4_page_cache_ttl (a : ProdArgs) (t1 t2 t3 : Nat)
    (site site2 site3 : String → ProductPage) (st : CacheState)
    (h1 : (getProductInfo a t1 site st).fetched = true)
    (hpos : 0 < t1) (hwin : t2 - t1 < 60000) (hexp : t1 + 60000 ≤ t3) :
    (getKey (getProductInfo a t1 site st).state.products
        (pageCacheKey (productPath a.styleCode)) =
      some ⟨t1, (getProductInfo a t1 site st).result⟩) ∧
    ((getProductInfo a t2 site2 (getProductInfo a t1 site st).state).fetched =
        false ∧
      (getProductInfo a t2 site2 (getProductInfo a t1 site st).state).result =
        (getProductInfo a t1 site st).result ∧
      (getProductInfo a t2 site2 (getProductInfo a t1 site st).state).state =
        (getProductInfo a t1 site st).state) ∧
    ((getProductInfo a t3 site3 (getProductInfo a t1 site st).state).fetched =
        true ∧
      (getProductInfo a t3 site3 (getProductInfo a t1 site st).state).result =
        parseProduct (site3 (productPath a.styleCode)) ∧
      getKey (getProductInfo a t3 site3
          (getProductInfo a t1 site st).state).state.products
          (pageCacheKey (productPath a.styleCode)) =
        some ⟨t3, parseProduct (site3 (productPath a.styleCode))⟩) := by
  have ho1 := getProductInfo_of_fetched h1
  have hcache : getKey (getProductInfo a t1 site st).state.products
      (pageCacheKey (productPath a.styleCode)) =
      some ⟨t1, (getProductInfo a t1 site st).result⟩ := by
    rw [ho1]
    exact getKey_setKey _ _ _
  have ho2 := @getProductInfo_hit a t2 site2 (getProductInfo a t1 site st).state
    ⟨t1, (getProductInfo a t1 site st).result⟩ hcache
    (by simpa using Nat.pos_iff_ne_zero.mp hpos) (by simpa using hwin)
  have ho3 := @getProductInfo_expired a t3 site3
    (getProductInfo a t1 site st).state
    ⟨t1, (getProductInfo a t1 site st).result⟩ hcache
    (by simp only []; omega)
  refine ⟨hcache, ⟨?_, ?_, ?_⟩, ⟨?_, ?_, ?_⟩⟩
  · rw [ho2]
  · rw [ho2]
  · rw [ho2]
  · rw [ho3]
  · rw [ho3]
  · rw [ho3]
    exact getKey_setKey _ _ _

/-- C4 witness: with the site serving `c4Page`, a first call at time 1
from an empty cache, a second at time 2 (within TTL) issuing no fetch,
and a third at time 60001 (expired) fetching again. -/
theorem c4_page_cache_ttl_witness :
    (getProductInfo ⟨"12345", none⟩ 1 c4Site ⟨[], []⟩).fetched = true ∧
    (getProductInfo ⟨"12345", none⟩ 2 c4Site
        (getProductInfo ⟨"12345", none⟩ 1 c4Site ⟨[], []⟩).state).fetched =
      false ∧
    (getProductInfo ⟨"12345", none⟩ 60001 c4Site
        (getProductInfo ⟨"12345", none⟩ 1 c4Site ⟨[], []⟩).state).fetched =
      true :=
  have h := c4_page_cache_ttl ⟨"12345", none⟩ 1 2 60001 c4Site c4Site c4Site
    ⟨[], []⟩ (by decide) (by decide) (by decide) (by decide)
  ⟨by decide, h.2.1.1, h.2.2.1⟩

end SZ
